import Mathlib

/-!
Verification development for the SentientOS gossip subsystem
(`src/gossip/{mod,peers,protocol,verify}.rs`).

The Rust code is shallowly embedded: the global peer registry (a
`HashMap<String, Peer>` behind a mutex) becomes a function
`String → Option Peer` with explicit state passing; the filesystem
(registry file, hash cache, pull directory) becomes explicit values and
write logs; `u64` arithmetic becomes `Nat` with explicit wrapping where
the Rust code can wrap; fallible operations return `Except`.  Network
oracles (`protocol::send_message`, live fetches) are abstracted as
function parameters, since their results are data the embedded code
merely consumes.
-/

namespace SentientOS

/-- Peer status, from `gossip/mod.rs` (`enum PeerStatus`). -/
inductive PeerStatus where
  | Unknown
  | Online
  | Offline
  | Synchronizing
  | Error
deriving DecidableEq, Repr

/-- Read-only peer snapshot, from `gossip/mod.rs` (`struct PeerInfo`). -/
structure PeerInfo where
  id : String
  endpoint : String
  last_seen : Nat
  status : PeerStatus
deriving DecidableEq, Repr

/-- Per-component sync metadata, from `gossip/mod.rs`
(`struct ComponentSyncStatus`). -/
structure ComponentSyncStatus where
  component : String
  last_sync : Nat
  state_hash : String
  progress : Nat
deriving DecidableEq, Repr

/-- Registry-owned peer record, from `gossip/mod.rs` (`struct Peer`). -/
structure Peer where
  id : String
  endpoint : String
  last_seen : Nat
  status : PeerStatus
  sync_status : List (String × ComponentSyncStatus)
deriving DecidableEq, Repr

/-- Verification status, from `gossip/verify.rs`
(`enum VerificationStatus`). -/
inductive VerificationStatus where
  | NoVerification
  | FullMatch
  | PartialMatch
  | NoMatch
deriving DecidableEq, Repr

/-- Mismatch details, from `gossip/verify.rs` (`struct TraceMismatch`). -/
structure TraceMismatch where
  peer_id : String
  local_hash : String
  peer_hash : String
deriving DecidableEq, Repr

/-- Verification result, from `gossip/verify.rs`
(`struct VerificationResult`). -/
structure VerificationResult where
  verified : Bool
  status : VerificationStatus
  matching_peers : Nat
  total_peers : Nat
  mismatch_details : List TraceMismatch
deriving DecidableEq, Repr

/-- `verify_trace` from `gossip/verify.rs` lines 52–112, after the local
hash and the collected peer digests are in hand.  `peer_hashes` is the
entry list of the collected `HashMap<String, String>` (peer id ↦ digest);
the map's keys are registry peer ids, hence pairwise distinct, and the
counters depend only on the multiset of entries.  Mirrors the source: an
empty collection short-circuits to `verified = true` with
`NoVerification`; otherwise matches are counted against `local_hash` and
the status is classified. -/
def verify_trace (local_hash : String) (peer_hashes : List (String × String)) :
    VerificationResult :=
  if peer_hashes = [] then
    { verified := true
      status := VerificationStatus.NoVerification
      matching_peers := 0
      total_peers := 0
      mismatch_details := [] }
  else
    let matching := peer_hashes.countP (fun ph => decide (ph.2 = local_hash))
    let mismatches :=
      (peer_hashes.filter (fun ph => decide (ph.2 ≠ local_hash))).map
        (fun ph => TraceMismatch.mk ph.1 local_hash ph.2)
    let status :=
      if matching = peer_hashes.length then VerificationStatus.FullMatch
      else if matching > 0 then VerificationStatus.PartialMatch
      else VerificationStatus.NoMatch
    { verified := decide (matching > 0)
      status := status
      matching_peers := matching
      total_peers := peer_hashes.length
      mismatch_details := mismatches }

/-- C1 counterexample: a run of `verify_trace` that collects zero peer
digests returns `verified = true` (with `matching_peers = 0`), not
`verified = false` as the claim requires of `verified = (matching_peers
> 0)`. -/
theorem verify_trace_no_peers_counterexample :
    (verify_trace "h" []).verified = true ∧
      ¬ ((verify_trace "h" []).matching_peers > 0) := by
  decide

/-- C1 (amended): whenever at least one peer digest is collected,
`verified = (matching_peers > 0)`; a run that collects zero peer digests
(status `NoVerification`, `matching_peers = 0`) returns
`verified = true`. -/
theorem verify_trace_verified_amended (local_hash : String)
    (peer_hashes : List (String × String)) :
    (peer_hashes ≠ [] →
      ((verify_trace local_hash peer_hashes).verified = true ↔
        (verify_trace local_hash peer_hashes).matching_peers > 0)) ∧
    (peer_hashes = [] →
      (verify_trace local_hash peer_hashes).verified = true ∧
      (verify_trace local_hash peer_hashes).status =
        VerificationStatus.NoVerification ∧
      (verify_trace local_hash peer_hashes).matching_peers = 0) := by
  constructor
  · intro hne
    simp only [verify_trace, if_neg hne]
    constructor
    · intro h
      exact of_decide_eq_true h
    · intro h
      exact decide_eq_true h
  · intro he
    subst he
    simp [verify_trace]

/-- C1 witness: the amended equivalence at a concrete nonempty
collection. -/
theorem verify_trace_verified_amended_witness :
    (verify_trace "h" [("p", "h")]).verified = true ↔
      (verify_trace "h" [("p", "h")]).matching_peers > 0 :=
  (verify_trace_verified_amended "h" [("p", "h")]).1 (by decide)

/-- C2: `verify_trace` classifies the run as `FullMatch` when
`matching_peers = total_peers > 0`, `PartialMatch` when
`0 < matching_peers < total_peers`, `NoMatch` when `matching_peers = 0 <
total_peers`, and `NoVerification` when `total_peers = 0`. -/
theorem verify_trace_status_classification (local_hash : String)
    (peer_hashes : List (String × String)) :
    ((verify_trace local_hash peer_hashes).total_peers = 0 →
      (verify_trace local_hash peer_hashes).status =
        VerificationStatus.NoVerification) ∧
    ((verify_trace local_hash peer_hashes).matching_peers =
        (verify_trace local_hash peer_hashes).total_peers ∧
      (verify_trace local_hash peer_hashes).total_peers > 0 →
      (verify_trace local_hash peer_hashes).status =
        VerificationStatus.FullMatch) ∧
    (0 < (verify_trace local_hash peer_hashes).matching_peers ∧
      (verify_trace local_hash peer_hashes).matching_peers <
        (verify_trace local_hash peer_hashes).total_peers →
      (verify_trace local_hash peer_hashes).status =
        VerificationStatus.PartialMatch) ∧
    ((verify_trace local_hash peer_hashes).matching_peers = 0 ∧
      (verify_trace local_hash peer_hashes).total_peers > 0 →
      (verify_trace local_hash peer_hashes).status =
        VerificationStatus.NoMatch) := by
  by_cases he : peer_hashes = []
  · subst he
    simp [verify_trace]
  · simp only [verify_trace, if_neg he]
    refine ⟨?_, ?_, ?_, ?_⟩
    · intro h
      exact absurd (List.length_eq_zero.mp h) he
    · intro h
      simp only [if_pos h.1]
    · intro h
      rw [if_neg (Nat.ne_of_lt h.2), if_pos h.1]
    · intro h
      have hlen : peer_hashes.countP (fun ph => decide (ph.2 = local_hash)) ≠
          peer_hashes.length := by
        rw [h.1]
        exact fun hc => absurd (List.length_eq_zero.mp hc.symm) he
      rw [if_neg hlen, if_neg (by simp [h.1])]

/-- C2 witness: the `FullMatch` branch at a concrete single matching
peer. -/
theorem verify_trace_status_classification_witness :
    (verify_trace "h" [("p", "h")]).status = VerificationStatus.FullMatch :=
  (verify_trace_status_classification "h" [("p", "h")]).2.1 (by decide)

/-- Errors surfaced by the gossip module (`anyhow` messages in the
source): unknown peer, peer not online, post-pull hash mismatch, and a
failed transport send. -/
inductive GossipError where
  | UnknownPeer
  | NotOnline
  | HashMismatch
  | SendFailed
deriving DecidableEq, Repr

/-- The global peer registry (`PeerRegistry.peers : HashMap<String,
Peer>` in `gossip/mod.rs`), embedded as a finite map from peer id. -/
def Registry : Type := String → Option Peer

/-- `add_peer` from `gossip/mod.rs` lines 77–102, restricted to its
registry effect: inserts a fresh peer with `status = Unknown`,
`last_seen = now`, empty `sync_status`, overwriting any existing entry
(the source always returns `Ok`). -/
def add_peer (reg : Registry) (peer_id endpoint : String) (now : Nat) :
    Registry :=
  fun x =>
    if x = peer_id then
      some { id := peer_id
             endpoint := endpoint
             last_seen := now
             status := PeerStatus.Unknown
             sync_status := [] }
    else reg x

/-- `remove_peer` from `gossip/mod.rs` lines 105–123, restricted to its
registry effect: removes the entry if present; absent ids are a warned
no-op returning `Ok`. -/
def remove_peer (reg : Registry) (peer_id : String) : Registry :=
  fun x => if x = peer_id then none else reg x

/-- `update_peer_status` from `gossip/mod.rs` lines 166–181: if the id
is registered, set its status to `status` and its `last_seen` to the
current time and return `Ok`; otherwise fail with the unknown-peer
error. -/
def update_peer_status (reg : Registry) (peer_id : String)
    (status : PeerStatus) (now : Nat) : Except GossipError Registry :=
  match reg peer_id with
  | some p =>
      Except.ok (fun x =>
        if x = peer_id then
          some { p with status := status, last_seen := now }
        else reg x)
  | none => Except.error GossipError.UnknownPeer

/-- C5: `update_peer_status` fails with the unknown-peer error exactly
when the id is absent from the registry at call time, and succeeds for
any id just added by `add_peer`. -/
theorem update_peer_status_unknown_iff (reg : Registry) (peer_id : String)
    (status : PeerStatus) (now : Nat) :
    (update_peer_status reg peer_id status now =
        Except.error GossipError.UnknownPeer ↔ reg peer_id = none) ∧
    (∀ endpoint n₀, ∃ reg',
      update_peer_status (add_peer reg peer_id endpoint n₀) peer_id status
        now = Except.ok reg') := by
  constructor
  · constructor
    · intro h
      cases hv : reg peer_id with
      | none => rfl
      | some p => rw [update_peer_status, hv] at h; exact absurd h (by simp)
    · intro h
      rw [update_peer_status, h]
  · intro endpoint n₀
    have hv : add_peer reg peer_id endpoint n₀ peer_id =
        some { id := peer_id
               endpoint := endpoint
               last_seen := n₀
               status := PeerStatus.Unknown
               sync_status := [] } := by
      simp [add_peer]
    exact ⟨_, by rw [update_peer_status, hv]⟩

/-- C5 witness: on an empty registry the call fails with the
unknown-peer error, and after `add_peer` it succeeds. -/
theorem update_peer_status_unknown_iff_witness :
    (update_peer_status (fun _ => none) "p" PeerStatus.Online 5 =
        Except.error GossipError.UnknownPeer) ∧
    (∃ reg', update_peer_status (add_peer (fun _ => none) "p" "e" 1) "p"
        PeerStatus.Online 5 = Except.ok reg') :=
  ⟨(update_peer_status_unknown_iff (fun _ => none) "p" PeerStatus.Online
      5).1.mpr rfl,
   (update_peer_status_unknown_iff (fun _ => none) "p" PeerStatus.Online
      5).2 "e" 1⟩

/-- C10: a successful `update_peer_status` sets the peer's `last_seen`
to the current time alongside its status — for every status value — and
leaves its id, endpoint and `sync_status`, and every other registry
entry, unchanged. -/
theorem update_peer_status_frame (reg : Registry) (peer_id : String)
    (status : PeerStatus) (now : Nat) (p : Peer)
    (h : reg peer_id = some p) :
    ∃ reg', update_peer_status reg peer_id status now = Except.ok reg' ∧
      reg' peer_id = some { id := p.id
                            endpoint := p.endpoint
                            last_seen := now
                            status := status
                            sync_status := p.sync_status } ∧
      ∀ x, x ≠ peer_id → reg' x = reg x := by
  refine ⟨fun x =>
      if x = peer_id then
        some { p with status := status, last_seen := now }
      else reg x, ?_, ?_, ?_⟩
  · rw [update_peer_status, h]
  · simp
  · intro x hx
    simp only [if_neg hx]

/-- C10 witness: the frame condition at a concrete one-peer registry,
demoting to `Offline`. -/
theorem update_peer_status_frame_witness :
    ∃ reg', update_peer_status
        (fun x => if x = "p" then
          some (Peer.mk "p" "e" 3 PeerStatus.Online []) else none)
        "p" PeerStatus.Offline 9 = Except.ok reg' ∧
      reg' "p" = some (Peer.mk "p" "e" 9 PeerStatus.Offline []) ∧
      ∀ x, x ≠ "p" → reg' x =
        (fun x => if x = "p" then
          some (Peer.mk "p" "e" 3 PeerStatus.Online []) else none) x :=
  update_peer_status_frame _ "p" PeerStatus.Offline 9
    (Peer.mk "p" "e" 3 PeerStatus.Online []) (by simp)

/-- System state for persistence claims: the in-memory registry behind
the mutex, and the on-disk `registry.json` that `save_peer_registry`
(`gossip/mod.rs` lines 211–235) overwrites with a serialization of the
in-memory one. -/
structure SysState where
  mem : Registry
  disk : Registry

/-- `save_peer_registry`: writes the whole in-memory registry to disk. -/
def save_peer_registry (s : SysState) : SysState :=
  { s with disk := s.mem }

/-- `add_peer` including its synchronous persistence (`gossip/mod.rs`
line 95). -/
def add_peer_op (s : SysState) (peer_id endpoint : String) (now : Nat) :
    SysState :=
  save_peer_registry { s with mem := add_peer s.mem peer_id endpoint now }

/-- `remove_peer` including its persistence: a present id is removed and
the registry saved; an absent id returns without mutation or save. -/
def remove_peer_op (s : SysState) (peer_id : String) : SysState :=
  match s.mem peer_id with
  | some _ => save_peer_registry { s with mem := remove_peer s.mem peer_id }
  | none => s

/-- `update_peer_status` including its synchronous persistence
(`gossip/mod.rs` line 174). -/
def update_peer_status_op (s : SysState) (peer_id : String)
    (status : PeerStatus) (now : Nat) : Except GossipError SysState :=
  match update_peer_status s.mem peer_id status now with
  | Except.ok m => Except.ok (save_peer_registry { mem := m, disk := s.disk })
  | Except.error e => Except.error e

/-- C8: every registry mutation — `add_peer`, `remove_peer` of a present
id, successful `update_peer_status` — persists the updated registry
before returning: afterwards the on-disk registry equals the in-memory
one. -/
theorem registry_mutations_persist (s : SysState) (peer_id endpoint : String)
    (status : PeerStatus) (now : Nat) :
    ((add_peer_op s peer_id endpoint now).disk =
      (add_peer_op s peer_id endpoint now).mem) ∧
    (s.mem peer_id ≠ none →
      (remove_peer_op s peer_id).disk = (remove_peer_op s peer_id).mem) ∧
    (s.mem peer_id ≠ none → ∃ s',
      update_peer_status_op s peer_id status now = Except.ok s' ∧
        s'.disk = s'.mem) := by
  refine ⟨rfl, ?_, ?_⟩
  · intro h
    cases hv : s.mem peer_id with
    | none => exact absurd hv h
    | some p => rw [remove_peer_op, hv]; rfl
  · intro h
    cases hv : s.mem peer_id with
    | none => exact absurd hv h
    | some p =>
        refine ⟨⟨fun x =>
            if x = peer_id then
              some { p with status := status, last_seen := now }
            else s.mem x,
          fun x =>
            if x = peer_id then
              some { p with status := status, last_seen := now }
            else s.mem x⟩, ?_, rfl⟩
        rw [update_peer_status_op, update_peer_status, hv]
        rfl

/-- C8 witness: persistence at a concrete one-peer state whose disk is
stale before the calls. -/
theorem registry_mutations_persist_witness :
    ((add_peer_op ⟨fun _ => none, fun _ => none⟩ "p" "e" 1).disk =
      (add_peer_op ⟨fun _ => none, fun _ => none⟩ "p" "e" 1).mem) ∧
    ((remove_peer_op
        ⟨fun x => if x = "p" then
          some (Peer.mk "p" "e" 0 PeerStatus.Unknown []) else none,
         fun _ => none⟩ "p").disk =
      (remove_peer_op
        ⟨fun x => if x = "p" then
          some (Peer.mk "p" "e" 0 PeerStatus.Unknown []) else none,
         fun _ => none⟩ "p").mem) ∧
    (∃ s', update_peer_status_op
        ⟨fun x => if x = "p" then
          some (Peer.mk "p" "e" 0 PeerStatus.Unknown []) else none,
         fun _ => none⟩ "p" PeerStatus.Online 7 = Except.ok s' ∧
      s'.disk = s'.mem) :=
  ⟨(registry_mutations_persist ⟨fun _ => none, fun _ => none⟩ "p" "e"
      PeerStatus.Online 1).1,
   (registry_mutations_persist
      ⟨fun x => if x = "p" then
        some (Peer.mk "p" "e" 0 PeerStatus.Unknown []) else none,
       fun _ => none⟩ "p" "e" PeerStatus.Online 7).2.1 (by simp),
   (registry_mutations_persist
      ⟨fun x => if x = "p" then
        some (Peer.mk "p" "e" 0 PeerStatus.Unknown []) else none,
       fun _ => none⟩ "p" "e" PeerStatus.Online 7).2.2 (by simp)⟩

/-- Rust `u64` wrapping subtraction `a - b` (the `now - last_seen` and
`now - timestamp` expressions in `gossip/peers.rs` and
`gossip/verify.rs` are `u64` subtractions, which wrap on underflow in
release builds). -/
def u64_wrapping_sub (a b : Nat) : Nat :=
  (a % 2 ^ 64 + 2 ^ 64 - b % 2 ^ 64) % 2 ^ 64

/-- For in-range operands with `b ≤ a`, wrapping subtraction agrees with
the mathematical difference. -/
theorem u64_wrapping_sub_eq (a b : Nat) (hba : b ≤ a) (ha : a < 2 ^ 64) :
    u64_wrapping_sub a b = a - b := by
  have hb : b < 2 ^ 64 := Nat.lt_of_le_of_lt hba ha
  rw [u64_wrapping_sub, Nat.mod_eq_of_lt ha, Nat.mod_eq_of_lt hb]
  have h1 : a + 2 ^ 64 - b = a - b + 2 ^ 64 := by omega
  rw [h1, Nat.add_mod_right, Nat.mod_eq_of_lt (by omega)]

/-- `PEER_OFFLINE_THRESHOLD` from `gossip/peers.rs` line 16 (seconds). -/
def PEER_OFFLINE_THRESHOLD : Nat := 120

/-- The per-peer body of `update_peer_statuses` (`gossip/peers.rs` lines
154–178): a peer already `Offline` is skipped; otherwise, if
`now - last_seen` (u64 subtraction) exceeds the offline threshold, the
peer is demoted through `update_peer_status`, which sets its status to
`Offline` and its `last_seen` to `now`; otherwise it is untouched. -/
def sweep_peer (now : Nat) (p : PeerInfo) : PeerInfo :=
  if p.status = PeerStatus.Offline then p
  else if u64_wrapping_sub now p.last_seen > PEER_OFFLINE_THRESHOLD then
    { p with status := PeerStatus.Offline, last_seen := now }
  else p

/-- `update_peer_statuses`: the status sweep applied to every listed
peer. -/
def update_peer_statuses (now : Nat) (peers : List PeerInfo) :
    List PeerInfo :=
  peers.map (sweep_peer now)

/-- C4: the sweep demotes a peer exactly when it is not already
`Offline` and `now - last_seen` strictly exceeds the 120-second
threshold; a peer exactly at the threshold (or below) is untouched, and
an `Offline` peer is never re-evaluated. -/
theorem sweep_demotes_iff (now : Nat) (peers : List PeerInfo)
    (p : PeerInfo) (h₁ : p.last_seen ≤ now) (h₂ : now < 2 ^ 64) :
    update_peer_statuses now peers = peers.map (sweep_peer now) ∧
    (p.status = PeerStatus.Offline → sweep_peer now p = p) ∧
    (p.status ≠ PeerStatus.Offline →
      ((sweep_peer now p).status = PeerStatus.Offline ↔
        now - p.last_seen > PEER_OFFLINE_THRESHOLD)) ∧
    (¬ now - p.last_seen > PEER_OFFLINE_THRESHOLD → sweep_peer now p = p) := by
  have hsub : u64_wrapping_sub now p.last_seen = now - p.last_seen :=
    u64_wrapping_sub_eq now p.last_seen h₁ h₂
  refine ⟨rfl, ?_, ?_, ?_⟩
  · intro h
    rw [sweep_peer, if_pos h]
  · intro h
    rw [sweep_peer, if_neg h, hsub]
    constructor
    · intro hs
      by_cases hgt : now - p.last_seen > PEER_OFFLINE_THRESHOLD
      · exact hgt
      · rw [if_neg hgt] at hs
        exact absurd hs h
    · intro hgt
      rw [if_pos hgt]
  · intro hgt
    rw [sweep_peer, hsub, if_neg hgt, ite_self]

/-- C4 witness: at silence exactly 120 s the peer stays `Unknown`; at
121 s it is demoted to `Offline`; an already-`Offline` peer is
untouched. -/
theorem sweep_demotes_iff_witness :
    sweep_peer 120 (PeerInfo.mk "p" "e" 0 PeerStatus.Unknown) =
      PeerInfo.mk "p" "e" 0 PeerStatus.Unknown ∧
    (sweep_peer 121 (PeerInfo.mk "p" "e" 0 PeerStatus.Unknown)).status =
      PeerStatus.Offline ∧
    sweep_peer 121 (PeerInfo.mk "p" "e" 0 PeerStatus.Offline) =
      PeerInfo.mk "p" "e" 0 PeerStatus.Offline :=
  ⟨(sweep_demotes_iff 120 [] (PeerInfo.mk "p" "e" 0 PeerStatus.Unknown)
      (by decide) (by decide)).2.2.2 (by decide),
   ((sweep_demotes_iff 121 [] (PeerInfo.mk "p" "e" 0 PeerStatus.Unknown)
      (by decide) (by decide)).2.2.1 (by decide)).mpr (by decide),
   (sweep_demotes_iff 121 [] (PeerInfo.mk "p" "e" 0 PeerStatus.Offline)
      (by decide) (by decide)).2.1 rfl⟩

/-- Provenance tag of a cached digest, from `gossip/verify.rs`
(`enum CachedHashSource`). -/
inductive CachedHashSource where
  | Direct
  | Inferred
  | Approved
deriving DecidableEq, Repr

/-- Cached peer digest, from `gossip/verify.rs`
(`struct CachedHashRecord`). -/
structure CachedHashRecord where
  peer_id : String
  hash : String
  timestamp : Nat
  source : CachedHashSource
deriving DecidableEq, Repr

/-- `load_cached_peer_hashes` from `gossip/verify.rs` lines 487–546,
over the successfully parsed records of the cache directory (one file
per peer id): a record enters the returned map exactly when
`now - record.timestamp` (u64 subtraction) is at most
`max_age_hours * 3600`. -/
def load_cached_peer_hashes (now max_age_hours : Nat)
    (records : List CachedHashRecord) : List (String × String) :=
  (records.filter (fun r =>
      decide (u64_wrapping_sub now r.timestamp ≤ max_age_hours * 3600))).map
    (fun r => (r.peer_id, r.hash))

/-- Remove the first occurrence of a cached record from a list. -/
def removeRecord (r : CachedHashRecord) :
    List CachedHashRecord → List CachedHashRecord
  | [] => []
  | x :: xs => if x = r then xs else x :: removeRecord r xs

/-- Filtering with a predicate that rejects `r` is unaffected by
removing one occurrence of `r`. -/
theorem filter_removeRecord (p : CachedHashRecord → Bool)
    (r : CachedHashRecord) (hp : p r = false) :
    ∀ l : List CachedHashRecord,
      l.filter p = (removeRecord r l).filter p := by
  intro l
  induction l with
  | nil => rfl
  | cons x xs ih =>
      rw [removeRecord]
      by_cases hx : x = r
      · subst hx
        rw [if_pos rfl, List.filter_cons_of_neg (by simp [hp])]
      · rw [if_neg hx]
        by_cases hpx : p x = true
        · rw [List.filter_cons_of_pos hpx, List.filter_cons_of_pos hpx, ih]
        · rw [List.filter_cons_of_neg (by simpa using hpx),
            List.filter_cons_of_neg (by simpa using hpx), ih]

/-- C7: an expired cache record — one whose age `now - timestamp`
strictly exceeds `max_age_hours * 3600` seconds — contributes nothing to
the loaded digest set: deleting it from the cache leaves
`load_cached_peer_hashes` unchanged, so it adds neither a match nor a
mismatch nor a unit of `total_peers`. -/
theorem expired_cache_record_excluded (now max_age_hours : Nat)
    (records : List CachedHashRecord) (r : CachedHashRecord)
    (hts : r.timestamp ≤ now) (hnow : now < 2 ^ 64)
    (hexp : now - r.timestamp > max_age_hours * 3600) :
    load_cached_peer_hashes now max_age_hours records =
      load_cached_peer_hashes now max_age_hours (removeRecord r records) := by
  have hp : decide (u64_wrapping_sub now r.timestamp ≤
      max_age_hours * 3600) = false := by
    rw [u64_wrapping_sub_eq now r.timestamp hts hnow]
    simp only [decide_eq_false_iff_not]
    omega
  rw [load_cached_peer_hashes, load_cached_peer_hashes,
    filter_removeRecord _ r hp records]

/-- C7 witness: with `max_age_hours = 24`, a record 1 s past expiry is
dropped while a fresh one is kept. -/
theorem expired_cache_record_excluded_witness :
    load_cached_peer_hashes 86401 24
        [CachedHashRecord.mk "p" "h1" 0 CachedHashSource.Direct,
         CachedHashRecord.mk "q" "h2" 86400 CachedHashSource.Direct] =
      load_cached_peer_hashes 86401 24
        (removeRecord (CachedHashRecord.mk "p" "h1" 0 CachedHashSource.Direct)
          [CachedHashRecord.mk "p" "h1" 0 CachedHashSource.Direct,
           CachedHashRecord.mk "q" "h2" 86400 CachedHashSource.Direct]) :=
  expired_cache_record_excluded 86401 24
    [CachedHashRecord.mk "p" "h1" 0 CachedHashSource.Direct,
     CachedHashRecord.mk "q" "h2" 86400 CachedHashSource.Direct]
    (CachedHashRecord.mk "p" "h1" 0 CachedHashSource.Direct)
    (by decide) (by decide) (by decide)

/-- The per-peer body of the collection loop in
`collect_peer_trace_hashes` (`gossip/verify.rs` lines 171–195): an
`Online` peer contributes its live fetch, falling back to its cached
digest when the fetch fails; a non-`Online` peer contributes its cached
digest when one exists; otherwise the peer contributes nothing.
`fetch` abstracts `protocol::get_trace_hash` (`None` = the call
errored); `cached` is the unexpired cache as loaded by
`load_cached_peer_hashes`. -/
def collect_step (fetch : String → String → Option String)
    (cached : List (String × String))
    (acc : List (String × String)) (peer : PeerInfo) :
    List (String × String) :=
  if peer.status = PeerStatus.Online then
    match fetch peer.id peer.endpoint with
    | some h => acc ++ [(peer.id, h)]
    | none =>
        match cached.lookup peer.id with
        | some ch => acc ++ [(peer.id, ch)]
        | none => acc
  else
    match cached.lookup peer.id with
    | some ch => acc ++ [(peer.id, ch)]
    | none => acc

/-- `collect_peer_trace_hashes` from `gossip/verify.rs` lines 156–209:
runs the per-peer loop over the registry listing, then, only if that
loop collected nothing, no peer was `Online`, and the cache is
non-empty, replaces the result with the entire cache. -/
def collect_peer_trace_hashes (peers : List PeerInfo)
    (fetch : String → String → Option String)
    (cached : List (String × String)) : List (String × String) :=
  let step := peers.foldl (collect_step fetch cached) []
  let online_count :=
    peers.countP (fun p => decide (p.status = PeerStatus.Online))
  if step = [] ∧ online_count = 0 ∧ cached ≠ [] then cached else step

/-- C3 counterexample: one registered peer `p`, `Offline`, with an
unexpired cached digest, and a second cache record for an id not in the
registry.  No peer is `Online` and the cache is non-empty, yet the
collected set is `p`'s record alone — not the entire cache. -/
theorem collect_entire_cache_counterexample :
    ¬ (collect_peer_trace_hashes [PeerInfo.mk "p" "e" 0 PeerStatus.Offline]
        (fun _ _ => none) [("p", "h1"), ("q", "h2")] =
      [("p", "h1"), ("q", "h2")]) := by
  decide

/-- C3 (amended): when no registered peer is `Online`, the cache is
non-empty, and additionally no registered peer has an entry in the
unexpired cache (so the per-peer loop collects nothing), the collection
uses the entire cache as the collected set. -/
theorem collect_entire_cache_amended (peers : List PeerInfo)
    (fetch : String → String → Option String)
    (cached : List (String × String))
    (h₁ : ∀ p ∈ peers, p.status ≠ PeerStatus.Online)
    (h₂ : cached ≠ [])
    (h₃ : ∀ p ∈ peers, cached.lookup p.id = none) :
    collect_peer_trace_hashes peers fetch cached = cached := by
  have hfold : ∀ ps : List PeerInfo, (∀ p ∈ ps, p.status ≠ PeerStatus.Online) →
      (∀ p ∈ ps, cached.lookup p.id = none) →
      ∀ acc, ps.foldl (collect_step fetch cached) acc = acc := by
    intro ps
    induction ps with
    | nil => intro _ _ acc; rfl
    | cons x xs ih =>
        intro hs hl acc
        rw [List.foldl_cons]
        have hx : collect_step fetch cached acc x = acc := by
          rw [collect_step, if_neg (hs x (List.mem_cons_self x xs)),
            hl x (List.mem_cons_self x xs)]
        rw [hx]
        exact ih (fun p hp => hs p (List.mem_cons_of_mem x hp))
          (fun p hp => hl p (List.mem_cons_of_mem x hp)) acc
  have hcount : peers.countP
      (fun p => decide (p.status = PeerStatus.Online)) = 0 := by
    rw [List.countP_eq_zero]
    intro p hp
    simpa using h₁ p hp
  rw [collect_peer_trace_hashes]
  simp only [if_pos (And.intro (hfold peers h₁ h₃ [])
    (And.intro hcount h₂))]

/-- C3 witness: the amended statement at a registry with one `Offline`
peer that has no cache entry; the whole (foreign-id) cache is used. -/
theorem collect_entire_cache_amended_witness :
    collect_peer_trace_hashes [PeerInfo.mk "p" "e" 0 PeerStatus.Offline]
        (fun _ _ => none) [("q", "h2")] = [("q", "h2")] :=
  collect_entire_cache_amended [PeerInfo.mk "p" "e" 0 PeerStatus.Offline]
    (fun _ _ => none) [("q", "h2")] (by decide) (by decide) (by decide)

/-- Trace file metadata, from `gossip/verify.rs`
(`struct TraceFileInfo`). -/
structure TraceFileInfo where
  name : String
  size : Nat
  hash : String
deriving DecidableEq, Repr

/-- A write performed by `pull_from_peer` under the pull directory:
either a downloaded trace file, or the `pull-record.json` success
record. -/
inductive FsWrite where
  | traceFile (name content : String)
  | pullRecord (peer_id hash : String) (files_count : Nat)
deriving DecidableEq, Repr

/-- Whether a write is the `pull-record.json` success record. -/
def FsWrite.isRecord : FsWrite → Bool
  | FsWrite.pullRecord _ _ _ => true
  | FsWrite.traceFile _ _ => false

/-- `pull_from_peer` from `gossip/verify.rs` lines 238–309: resolve the
peer (unknown → error), require it `Online`, fetch its reported trace
hash and file list, write each downloaded file, recompute the digest
over the downloaded contents, and fail with the hash-mismatch error —
without writing the pull record — when it differs from the reported
hash; on agreement append the `pull-record.json` record.  The network
oracles (`get_hash`, `list_files`, `get_file`) abstract the protocol
calls, and `hash_dir` abstracts the blake3 fold over the pulled
directory's contents; the second component of the result is the log of
writes under the pull directory. -/
def pull_from_peer (peers : List PeerInfo) (peer_id : String)
    (get_hash : String → String → String)
    (list_files : String → String → List TraceFileInfo)
    (get_file : String → String → String → String)
    (hash_dir : List String → String) :
    Except GossipError Unit × List FsWrite :=
  match peers.find? (fun p => decide (p.id = peer_id)) with
  | none => (Except.error GossipError.UnknownPeer, [])
  | some peer =>
      if peer.status ≠ PeerStatus.Online then
        (Except.error GossipError.NotOnline, [])
      else
        let peer_hash := get_hash peer_id peer.endpoint
        let files := list_files peer_id peer.endpoint
        let writes := files.map (fun f =>
          FsWrite.traceFile f.name (get_file peer_id peer.endpoint f.name))
        let hash_hex := hash_dir (files.map (fun f =>
          get_file peer_id peer.endpoint f.name))
        if hash_hex ≠ peer_hash then
          (Except.error GossipError.HashMismatch, writes)
        else
          (Except.ok (),
            writes ++ [FsWrite.pullRecord peer_id peer_hash files.length])

/-- C6: when the digest recomputed over the downloaded trace files
differs from the peer-reported hash, `pull_from_peer` returns the
hash-mismatch error and its write log contains no `pull-record.json`
success record. -/
theorem pull_from_peer_hash_mismatch (peers : List PeerInfo)
    (peer_id : String) (get_hash : String → String → String)
    (list_files : String → String → List TraceFileInfo)
    (get_file : String → String → String → String)
    (hash_dir : List String → String) (peer : PeerInfo)
    (hfind : peers.find? (fun p => decide (p.id = peer_id)) = some peer)
    (hon : peer.status = PeerStatus.Online)
    (hne : hash_dir ((list_files peer_id peer.endpoint).map (fun f =>
        get_file peer_id peer.endpoint f.name)) ≠
      get_hash peer_id peer.endpoint) :
    (pull_from_peer peers peer_id get_hash list_files get_file
        hash_dir).1 = Except.error GossipError.HashMismatch ∧
    ∀ w ∈ (pull_from_peer peers peer_id get_hash list_files get_file
        hash_dir).2, w.isRecord = false := by
  rw [pull_from_peer, hfind]
  simp only [if_neg (not_not_intro hon), if_pos hne]
  refine ⟨trivial, ?_⟩
  intro w hw
  obtain ⟨f, _, hwf⟩ := List.mem_map.mp hw
  rw [← hwf]
  rfl

/-- C6 witness: a mismatching pull (`recomputed "B" ≠ reported "A"`)
errors and writes no success record. -/
theorem pull_from_peer_hash_mismatch_witness :
    (pull_from_peer [PeerInfo.mk "p" "e" 0 PeerStatus.Online] "p"
        (fun _ _ => "A") (fun _ _ => [TraceFileInfo.mk "f" 1 "x"])
        (fun _ _ _ => "c") (fun _ => "B")).1 =
      Except.error GossipError.HashMismatch ∧
    ∀ w ∈ (pull_from_peer [PeerInfo.mk "p" "e" 0 PeerStatus.Online] "p"
        (fun _ _ => "A") (fun _ _ => [TraceFileInfo.mk "f" 1 "x"])
        (fun _ _ _ => "c") (fun _ => "B")).2, w.isRecord = false :=
  pull_from_peer_hash_mismatch [PeerInfo.mk "p" "e" 0 PeerStatus.Online]
    "p" (fun _ _ => "A") (fun _ _ => [TraceFileInfo.mk "f" 1 "x"])
    (fun _ _ _ => "c") (fun _ => "B")
    (PeerInfo.mk "p" "e" 0 PeerStatus.Online)
    (by decide) (by decide) (by decide)

/-- `get_trace_hash` from `gossip/protocol.rs` lines 439–463: a request
datagram is sent to the peer's endpoint (`send_ok` abstracts whether
`send_message` succeeds), then — the response being simulated — the
returned digest is the blake3 hex (`hash_hex`) of the peer id
concatenated with the fixed constant `"trace-hash-simulation"`.  No
value received over the network enters the result: the model has no
network-input parameter at all. -/
def get_trace_hash (hash_hex : String → String)
    (send_ok : String → Bool) (peer_id endpoint : String) :
    Except GossipError String :=
  if send_ok endpoint then
    Except.ok (hash_hex (peer_id ++ "trace-hash-simulation"))
  else
    Except.error GossipError.SendFailed

/-- C9: any two successful `get_trace_hash` calls with the same peer id
return the same digest — the fixed hash of the peer id and a constant —
independent of endpoint, peer state or network behaviour (`send_ok`
varies freely between the calls; the digest is fixed once the hash
function is). -/
theorem get_trace_hash_depends_only_on_peer_id
    (hash_hex : String → String) (send_ok₁ send_ok₂ : String → Bool)
    (peer_id ep₁ ep₂ h₁ h₂ : String)
    (ha : get_trace_hash hash_hex send_ok₁ peer_id ep₁ = Except.ok h₁)
    (hb : get_trace_hash hash_hex send_ok₂ peer_id ep₂ = Except.ok h₂) :
    h₁ = h₂ ∧ h₁ = hash_hex (peer_id ++ "trace-hash-simulation") := by
  cases hs₁ : send_ok₁ ep₁ with
  | false => rw [get_trace_hash, hs₁] at ha; exact absurd ha (by simp)
  | true =>
      cases hs₂ : send_ok₂ ep₂ with
      | false => rw [get_trace_hash, hs₂] at hb; exact absurd hb (by simp)
      | true =>
          rw [get_trace_hash, hs₁] at ha
          rw [get_trace_hash, hs₂] at hb
          simp only [if_true, Except.ok.injEq] at ha hb
          rw [← ha, ← hb]
          exact ⟨rfl, rfl⟩

/-- C9 witness: two successful calls at different endpoints agree on the
digest of peer id `"p"`. -/
theorem get_trace_hash_depends_only_on_peer_id_witness :
    "ptrace-hash-simulation" = "ptrace-hash-simulation" ∧
    "ptrace-hash-simulation" =
      (fun s => s) ("p" ++ "trace-hash-simulation") :=
  get_trace_hash_depends_only_on_peer_id (fun s => s) (fun _ => true)
    (fun _ => true) "p" "e1" "e2" "ptrace-hash-simulation"
    "ptrace-hash-simulation" rfl rfl

end SentientOS
